import Mathlib

/-!
Shallow embedding of the location-search and route-selection interaction
core of the AI-ECO-MAP frontend.

Two components are modelled as explicit event-step state machines:

* `LocationInput` (src/components/LocationInput.tsx): debounced geocode
  search with a coordinate short-circuit, external value sync, result
  selection, clearing and outside-click dismissal.
* `App` (src/App.tsx): route-planning requests against the backend,
  success/failure handling and route selection.

JavaScript numbers that occur here are all exact decimal values; they
are modelled by `Dec` (an integer scaled by a power of ten, kept in
normal form so that value equality is representation equality), with
`none : Option Dec` standing for `NaN`.  The asynchronous pieces (the
300 ms debounce timer and the in-flight network requests) are made
explicit state so that event interleavings can be reasoned about.
-/

namespace EcoMap

/-- An exact decimal number `num / 10 ^ exp`.  All JavaScript numbers
arising in the modelled code are of this shape. -/
structure Dec where
  num : Int
  exp : Nat
  deriving DecidableEq

/-- Strip common factors of ten: `stripTens n e` divides `n` by ten as
long as possible while decreasing the exponent `e`. -/
def stripTens : Int → Nat → Int × Nat
  | n, 0 => (n, 0)
  | n, e + 1 => if n % 10 = 0 then stripTens (n / 10) e else (n, e + 1)

/-- Normal form of a `Dec`: no trailing zero factor, and zero has
exponent zero.  Values are normalised at every creation point, so that
equality of JavaScript numbers coincides with `Dec` equality. -/
def Dec.norm (d : Dec) : Dec :=
  let p := stripTens d.num d.exp
  { num := p.1, exp := p.2 }

/-- The decimal value of an integer. -/
def Dec.ofInt (n : Int) : Dec :=
  { num := n, exp := 0 }

/-- Comparison of decimals by cross multiplication. -/
def Dec.le (a b : Dec) : Bool :=
  decide (a.num * ((10 ^ b.exp : Nat) : Int) ≤ b.num * ((10 ^ a.exp : Nat) : Int))

/-- A JavaScript number: `some d` is a finite decimal value, `none`
models `NaN`. -/
abbrev JSNum := Option Dec

/-- JavaScript whitespace test (the `\s` character class restricted to
the ASCII range: space and the control characters 9–13). -/
def jsIsSpace (c : Char) : Bool :=
  c = ' ' || (9 ≤ c.toNat && c.toNat ≤ 13)

/-- Numeric value of a decimal digit list, most significant digit
first. -/
def digitsVal (ds : List Char) : Nat :=
  ds.foldl (fun n c => 10 * n + (c.toNat - 48)) 0

/-- JavaScript `parseFloat` on plain decimal notation: skip leading
whitespace, read an optional sign and digits with an optional decimal
point, and ignore any trailing text; `none` models the `NaN` outcome
(no digits found). -/
def jsParseFloat (s : String) : JSNum :=
  let cs := s.data.dropWhile jsIsSpace
  let t : Int × List Char :=
    match cs with
    | '-' :: rest => (-1, rest)
    | '+' :: rest => (1, rest)
    | rest => (1, rest)
  let ip := t.2.takeWhile Char.isDigit
  let cs2 := t.2.dropWhile Char.isDigit
  let fp : List Char :=
    match cs2 with
    | '.' :: cs3 => cs3.takeWhile Char.isDigit
    | _ => []
  if ip.isEmpty && fp.isEmpty then none
  else some (Dec.norm
    { num := t.1 * ((digitsVal ip * 10 ^ fp.length + digitsVal fp : Nat) : Int),
      exp := fp.length })

/-- The character of a decimal digit. -/
def digitChar : Nat → Char
  | 0 => '0' | 1 => '1' | 2 => '2' | 3 => '3' | 4 => '4'
  | 5 => '5' | 6 => '6' | 7 => '7' | 8 => '8' | _ => '9'

/-- Decimal digit characters of a natural number (fuelled helper). -/
def natDigitsAux : Nat → Nat → List Char → List Char
  | 0, _, acc => acc
  | f + 1, n, acc =>
    if n < 10 then digitChar n :: acc
    else natDigitsAux f (n / 10) (digitChar (n % 10) :: acc)

/-- Decimal digit characters of a natural number, most significant
first. -/
def natDigits (n : Nat) : List Char :=
  natDigitsAux (n + 1) n []

/-- JavaScript number-to-string conversion for a normalised decimal:
the rendering used by template literals such as the address string
`lat, lng`. -/
def Dec.render (d : Dec) : String :=
  let sign := if d.num < 0 then "-" else ""
  let ds := natDigits d.num.natAbs
  if d.exp = 0 then sign ++ String.mk ds
  else
    let ds := if ds.length ≤ d.exp then List.replicate (d.exp + 1 - ds.length) '0' ++ ds else ds
    sign ++ String.mk (ds.take (ds.length - d.exp) ++ '.' :: ds.drop (ds.length - d.exp))

/-- Template-literal rendering of a JavaScript number (`NaN` prints as
the string `NaN`). -/
def jsNumToString : JSNum → String
  | none => "NaN"
  | some d => d.render

/-- Match the regex group `-?\d+\.?\d*` at the head of `cs`; on success
return the matched characters and the remaining input. -/
def matchNumGroup (cs : List Char) : Option (List Char × List Char) :=
  let t : List Char × List Char :=
    match cs with
    | '-' :: rest => (['-'], rest)
    | rest => ([], rest)
  let ip := t.2.takeWhile Char.isDigit
  let cs2 := t.2.dropWhile Char.isDigit
  if ip.isEmpty then none
  else
    match cs2 with
    | '.' :: cs3 =>
        some (t.1 ++ ip ++ '.' :: cs3.takeWhile Char.isDigit,
              cs3.dropWhile Char.isDigit)
    | _ => some (t.1 ++ ip, cs2)

/-- Model of the coordinate test
`query.match(/^(-?\d+\.?\d*),\s*(-?\d+\.?\d*)$/)` from LocationInput:
on success, the two captured groups. -/
def coordMatchGroups (q : String) : Option (String × String) :=
  match matchNumGroup q.data with
  | none => none
  | some (g1, rest) =>
    match rest with
    | ',' :: rest2 =>
      match matchNumGroup (rest2.dropWhile jsIsSpace) with
      | none => none
      | some (g2, rest4) =>
        if rest4.isEmpty then some (String.mk g1, String.mk g2) else none
    | _ => none

/-- JavaScript `<=` against a constant: false when the left side is
`NaN`. -/
def jsLe (a : JSNum) (b : Int) : Bool :=
  match a with
  | none => false
  | some d => Dec.le d (Dec.ofInt b)

/-- JavaScript `>=` against a constant: false when the left side is
`NaN`. -/
def jsGe (a : JSNum) (b : Int) : Bool :=
  match a with
  | none => false
  | some d => Dec.le (Dec.ofInt b) d

/-- The `Location` interface (src/types/api.ts): latitude, longitude and
an optional address. -/
structure Location where
  lat : JSNum
  lng : JSNum
  address : Option String
  deriving DecidableEq

/-- A geocoding provider result (`SearchResult` in LocationInput.tsx):
display name and textual latitude/longitude. -/
structure SearchResult where
  display_name : String
  lat : String
  lon : String
  deriving DecidableEq

/-- State of one `LocationInput` field.  The React state hooks `query`,
`results`, `isSearching` and `showResults` are joined by the
asynchronous machinery made explicit: `timer` is the pending debounce
timeout together with the query its callback captured, `inFlight` the
dispatched geocoding requests (request id and originating query) whose
responses have not yet arrived, `nextReq` the id counter, and `emitted`
the log of `onChange` calls (most recent first). -/
structure LIState where
  query : String
  results : List SearchResult
  isSearching : Bool
  showResults : Bool
  timer : Option String
  inFlight : List (Nat × String)
  nextReq : Nat
  emitted : List (Option Location)
  deriving DecidableEq

/-- Initial state of a `LocationInput` field. -/
def liInit : LIState :=
  { query := "", results := [], isSearching := false, showResults := false,
    timer := none, inFlight := [], nextReq := 0, emitted := [] }

/-- The debounced-search effect (LocationInput.tsx lines 44–87), run
whenever `query` changes: any pending timeout is cleared, then either a
new 300 ms timer is armed (query longer than 2 characters) or the
result list is cleared and the dropdown closed. -/
def runSearchEffect (s : LIState) : LIState :=
  if s.query.length > 2 then
    { s with timer := some s.query }
  else
    { s with timer := none, results := [], showResults := false }

/-- `setQuery`: update the query text; the search effect re-runs exactly
when the text actually changed (React bails out of a state update with
an identical value). -/
def setQueryText (s : LIState) (q : String) : LIState :=
  if q = s.query then s else runSearchEffect { s with query := q }

/-- Dispatch of the network geocoding request
(`await geocodingService.searchLocation(query)`): the request becomes
in-flight and `isSearching` stays set until its completion runs the
`finally` block. -/
def dispatchSearch (s : LIState) (q : String) : LIState :=
  { s with timer := none, isSearching := true,
           inFlight := s.inFlight ++ [(s.nextReq, q)],
           nextReq := s.nextReq + 1 }

/-- The `Location` emitted by the coordinate short-circuit, with the
template-literal address. -/
def coordLocation (lat lng : JSNum) : Location :=
  { lat := lat, lng := lng,
    address := some (jsNumToString lat ++ ", " ++ jsNumToString lng) }

/-- Firing of the debounce timer (the body of the `setTimeout` callback,
LocationInput.tsx lines 50–76): test the captured query against the
coordinate pattern; an in-range coordinate pair short-circuits to a
direct `onChange`, anything else dispatches a geocoding request. -/
def fireTimer (s : LIState) : LIState :=
  match s.timer with
  | none => s
  | some q =>
    match coordMatchGroups q with
    | some (g1, g2) =>
      let lat := jsParseFloat g1
      let lng := jsParseFloat g2
      if jsGe lat (-90) && jsLe lat 90 && jsGe lng (-180) && jsLe lng 180 then
        { s with timer := none, isSearching := false,
                 results := [], showResults := false,
                 emitted := some (coordLocation lat lng) :: s.emitted }
      else
        dispatchSearch s q
    | none => dispatchSearch s q

/-- Arrival of the response of geocoding request `id` (the code after
the `await`, lines 68–69 and the `finally`): applied unconditionally,
with no comparison against the current query. -/
def respondSearch (s : LIState) (id : Nat) (res : List SearchResult) : LIState :=
  if s.inFlight.any (fun p => p.1 == id) then
    { s with inFlight := s.inFlight.filter (fun p => p.1 != id),
             results := res, showResults := decide (0 < res.length),
             isSearching := false }
  else s

/-- Failure of geocoding request `id` (the `catch` branch, lines 70–72,
plus the `finally`): results cleared, searching flag dropped; the
dropdown visibility is left untouched. -/
def failSearchStep (s : LIState) (id : Nat) : LIState :=
  if s.inFlight.any (fun p => p.1 == id) then
    { s with inFlight := s.inFlight.filter (fun p => p.1 != id),
             results := [], isSearching := false }
  else s

/-- The display text derived from an upstream `Location` value
(value-sync effect, lines 33–41): the address when truthy (present and
non-empty), else the `lat, lng` template rendering, else the empty
string when the value is null. -/
def deriveQueryText : Option Location → String
  | some v =>
    match v.address with
    | some a =>
      if a = "" then jsNumToString v.lat ++ ", " ++ jsNumToString v.lng else a
    | none => jsNumToString v.lat ++ ", " ++ jsNumToString v.lng
  | none => ""

/-- External value change: the parent re-renders with a new `value`
prop, and the value-sync effect writes the derived text into `query`. -/
def externalValueStep (s : LIState) (v : Option Location) : LIState :=
  setQueryText s (deriveQueryText v)

/-- The `Location` built from a selected geocoding result
(`handleSelectResult`, lines 101–106). -/
def locationOfResult (r : SearchResult) : Location :=
  { lat := jsParseFloat r.lat, lng := jsParseFloat r.lon,
    address := some r.display_name }

/-- Selecting a dropdown result (`handleSelectResult`, lines 101–110):
emit the parsed location, set the query to the display name, close the
dropdown. -/
def selectResultStep (s : LIState) (r : SearchResult) : LIState :=
  let s1 := { s with emitted := some (locationOfResult r) :: s.emitted }
  let s2 := setQueryText s1 r.display_name
  { s2 with showResults := false }

/-- The clear button (`handleClear`, lines 112–117): empty the query,
emit null, clear the results, close the dropdown. -/
def clearStep (s : LIState) : LIState :=
  let s1 := setQueryText s ""
  { s1 with emitted := none :: s1.emitted, results := [], showResults := false }

/-- Events a `LocationInput` field can experience: a keystroke editing
the text, the debounce timer firing, arrival or failure of a geocode
response, an external (programmatic) value change, selection of a
result, the clear button, and a click outside the field. -/
inductive LIEvent where
  | keystroke (q : String)
  | timerFire
  | respond (id : Nat) (res : List SearchResult)
  | failSearch (id : Nat)
  | externalValue (v : Option Location)
  | selectResult (r : SearchResult)
  | clearField
  | clickOutside
  deriving DecidableEq

/-- One event-loop turn of a `LocationInput` field. -/
def liStep (s : LIState) : LIEvent → LIState
  | .keystroke q => setQueryText s q
  | .timerFire => fireTimer s
  | .respond id res => respondSearch s id res
  | .failSearch id => failSearchStep s id
  | .externalValue v => externalValueStep s v
  | .selectResult r => selectResultStep s r
  | .clearField => clearStep s
  | .clickOutside => { s with showResults := false }

/-- Run of a sequence of events from a given state. -/
def liRun (s : LIState) (es : List LIEvent) : LIState :=
  es.foldl liStep s

/-- Route geometry (src/types/api.ts). -/
structure RouteGeometry where
  type : String
  coordinates : List (List Dec)
  deriving DecidableEq

/-- Route details (src/types/api.ts). -/
structure RouteDetails where
  distance_km : Dec
  duration_min : Dec
  geometry : RouteGeometry
  deriving DecidableEq

/-- Eco-score breakdown (src/types/api.ts). -/
structure ScoreBreakdown where
  transportation_mode : Dec
  air_quality_impact : Dec
  distance_efficiency : Dec
  weather_conditions : Dec
  deriving DecidableEq

/-- Eco-analysis factors (src/types/api.ts). -/
structure EcoFactors where
  mode : String
  distance_km : Dec
  air_quality_index : Dec
  weather_condition : String
  deriving DecidableEq

/-- Eco analysis of one route option (src/types/api.ts). -/
structure EcoAnalysis where
  eco_score : Dec
  score_breakdown : ScoreBreakdown
  rating : String
  recommendations : List String
  factors : EcoFactors
  deriving DecidableEq

/-- Estimated emissions (src/types/api.ts). -/
structure EmissionsData where
  total_co2_grams : Dec
  co2_per_km : Dec
  equivalent_trees_needed : Dec
  deriving DecidableEq

/-- One route option of a planning response (src/types/api.ts). -/
structure RouteOption where
  mode : String
  route_details : RouteDetails
  eco_analysis : EcoAnalysis
  estimated_emissions : EmissionsData
  deriving DecidableEq

/-- Weather data (src/types/api.ts). -/
structure WeatherData where
  temperature : String
  condition : String
  humidity : Dec
  wind_speed : Dec
  deriving DecidableEq

/-- Air-quality data (src/types/api.ts). -/
structure PollutionData where
  air_quality_index : Dec
  components : List (String × Dec)
  deriving DecidableEq

/-- A longitude/latitude pair as returned by the backend. -/
structure LonLat where
  lon : Dec
  lat : Dec
  deriving DecidableEq

/-- Environmental conditions of a planning response. -/
structure EnvironmentalConditions where
  weather : WeatherData
  air_quality : PollutionData
  deriving DecidableEq

/-- Summary block of a planning response. -/
structure RouteSummary where
  best_eco_score : Dec
  total_options_analyzed : Dec
  environmental_status : String
  deriving DecidableEq

/-- Planning response (`EcoRouteResponse`, src/types/api.ts): ordered
route options, the backend-recommended route (possibly null),
environmental conditions and a summary. -/
structure EcoRouteResponse where
  start_location : LonLat
  end_location : LonLat
  environmental_conditions : EnvironmentalConditions
  route_options : List RouteOption
  recommended_route : Option RouteOption
  summary : RouteSummary
  deriving DecidableEq

/-- State of the `App` component (src/App.tsx).  The React state hooks
are joined by the asynchronous machinery made explicit: `planInFlight`
is the set of dispatched but unanswered planning calls (by sequence
number), `nextCall` the call counter, and `requests` the append-only
log of dispatched requests with their serialized query parameters
(start, end, comma-joined modes). -/
structure AppState where
  startLocation : Option Location
  endLocation : Option Location
  selectedModes : List String
  routeData : Option EcoRouteResponse
  selectedRoute : Option RouteOption
  isLoading : Bool
  error : Option String
  planInFlight : List Nat
  nextCall : Nat
  requests : List (Nat × String × String × String)
  deriving DecidableEq

/-- Initial `App` state: cycling preselected, everything else empty. -/
def appInit : AppState :=
  { startLocation := none, endLocation := none,
    selectedModes := ["cycling-regular"],
    routeData := none, selectedRoute := none,
    isLoading := false, error := none,
    planInFlight := [], nextCall := 0, requests := [] }

/-- Serialization of a `Location` for the backend: the template literal
puts the longitude first (`lng,lat`). -/
def serializeCoords (l : Location) : String :=
  jsNumToString l.lng ++ "," ++ jsNumToString l.lat

/-- The generic planning-failure message. -/
def fallbackPlanError : String := "Failed to plan route. Please try again."

/-- The validation message shown when start, end or modes are missing. -/
def missingFieldsError : String := "Please fill in all required fields"

/-- The displayed failure message,
`err.response?.data?.detail || fallback`: the structured detail when
truthy (present and non-empty), else the generic message. -/
def planErrorMessage : Option String → String
  | some d => if d = "" then fallbackPlanError else d
  | none => fallbackPlanError

/-- Invocation of `handlePlanRoute` (src/App.tsx lines 22–45) up to its
suspension point: validation, then loading flag, error reset and
dispatch of the planning call. -/
def planClickStep (s : AppState) : AppState :=
  match s.startLocation, s.endLocation with
  | some st, some en =>
    if s.selectedModes.isEmpty then
      { s with error := some missingFieldsError }
    else
      { s with isLoading := true, error := none,
               planInFlight := s.planInFlight ++ [s.nextCall],
               requests := s.requests ++
                 [(s.nextCall, serializeCoords st, serializeCoords en,
                   String.intercalate "," s.selectedModes)],
               nextCall := s.nextCall + 1 }
  | _, _ => { s with error := some missingFieldsError }

/-- Successful completion of planning call `id` (the code after the
`await`, lines 36–37, plus the `finally`): applied unconditionally,
with no check that a newer call has been issued since. -/
def planSuccessStep (s : AppState) (id : Nat) (resp : EcoRouteResponse) : AppState :=
  if s.planInFlight.contains id then
    { s with planInFlight := s.planInFlight.filter (fun i => i != id),
             routeData := some resp,
             selectedRoute := resp.recommended_route,
             isLoading := false }
  else s

/-- Failed completion of planning call `id` (the `catch` branch, lines
38–41, plus the `finally`). -/
def planFailureStep (s : AppState) (id : Nat) (detail : Option String) : AppState :=
  if s.planInFlight.contains id then
    { s with planInFlight := s.planInFlight.filter (fun i => i != id),
             error := some (planErrorMessage detail),
             routeData := none, selectedRoute := none,
             isLoading := false }
  else s

/-- Events of the `App` component: the plan button, completion of а
planning call, manual route selection, retry, updates of the three
inputs, and render-only activity. -/
inductive AppEvent where
  | planClick
  | planSuccess (id : Nat) (resp : EcoRouteResponse)
  | planFailure (id : Nat) (detail : Option String)
  | routeSelect (r : RouteOption)
  | retryClick
  | setStart (v : Option Location)
  | setEnd (v : Option Location)
  | setModes (ms : List String)
  | redraw
  deriving DecidableEq

/-- One event-loop turn of the `App` component.  `routeSelect` is
`handleRouteSelect` (lines 47–49): an unconditional
`setSelectedRoute(route)`.  `retryClick` is `handleRetry` (lines
51–54).  `redraw` is any re-render (map redraw, display update): the
render function mutates no state. -/
def appStep (s : AppState) : AppEvent → AppState
  | .planClick => planClickStep s
  | .planSuccess id resp => planSuccessStep s id resp
  | .planFailure id detail => planFailureStep s id detail
  | .routeSelect r => { s with selectedRoute := some r }
  | .retryClick => planClickStep { s with error := none }
  | .setStart v => { s with startLocation := v }
  | .setEnd v => { s with endLocation := v }
  | .setModes ms => { s with selectedModes := ms }
  | .redraw => s

/-- Run of a sequence of `App` events from a given state. -/
def appRun (s : AppState) (es : List AppEvent) : AppState :=
  es.foldl appStep s

/-- Fixture: a route option of the given transport mode. -/
def mkRoute (m : String) (score : Int) : RouteOption :=
  { mode := m,
    route_details :=
      { distance_km := Dec.ofInt 3, duration_min := Dec.ofInt 15,
        geometry := { type := "LineString",
                      coordinates := [[Dec.ofInt 80, Dec.ofInt 13],
                                      [Dec.ofInt 81, Dec.ofInt 14]] } },
    eco_analysis :=
      { eco_score := Dec.ofInt score,
        score_breakdown :=
          { transportation_mode := Dec.ofInt 40, air_quality_impact := Dec.ofInt 20,
            distance_efficiency := Dec.ofInt 20, weather_conditions := Dec.ofInt 10 },
        rating := "good", recommendations := [],
        factors :=
          { mode := m, distance_km := Dec.ofInt 3, air_quality_index := Dec.ofInt 2,
            weather_condition := "Clear" } },
    estimated_emissions :=
      { total_co2_grams := Dec.ofInt 0, co2_per_km := Dec.ofInt 0,
        equivalent_trees_needed := Dec.ofInt 0 } }

/-- Fixture: a planning response with the given options and
recommendation. -/
def mkResponse (opts : List RouteOption) (rec : Option RouteOption) : EcoRouteResponse :=
  { start_location := { lon := Dec.ofInt 80, lat := Dec.ofInt 13 },
    end_location := { lon := Dec.ofInt 81, lat := Dec.ofInt 14 },
    environmental_conditions :=
      { weather := { temperature := "30", condition := "Clear",
                     humidity := Dec.ofInt 60, wind_speed := Dec.ofInt 3 },
        air_quality := { air_quality_index := Dec.ofInt 2, components := [] } },
    route_options := opts,
    recommended_route := rec,
    summary := { best_eco_score := Dec.ofInt 90,
                 total_options_analyzed := Dec.ofInt 1,
                 environmental_status := "Good" } }

/-- Fixture: the cycling route option. -/
def routeCycling : RouteOption := mkRoute "cycling-regular" 90

/-- Fixture: the walking route option. -/
def routeWalking : RouteOption := mkRoute "foot-walking" 85

/-- Fixture: the driving route option. -/
def routeDriving : RouteOption := mkRoute "driving-car" 40

/-- Fixture: a start location. -/
def locStart : Location :=
  { lat := some (Dec.ofInt 13), lng := some (Dec.ofInt 80), address := some "Start" }

/-- Fixture: an end location. -/
def locEnd : Location :=
  { lat := some (Dec.ofInt 14), lng := some (Dec.ofInt 81), address := some "End" }

/-- Fixture: a geocoding result. -/
def sampleResult : SearchResult :=
  { display_name := "Paris, Ile-de-France, France", lat := "48.85", lon := "2.35" }

/-- Fixture: a field state whose debounce timer is armed with an
in-range coordinate query. -/
def c5state : LIState :=
  { liInit with query := "13.05, 80.27", timer := some "13.05, 80.27" }

/-- Fixture: a field state whose debounce timer is armed with an
out-of-range coordinate query. -/
def c10state : LIState :=
  { liInit with query := "95, 200", timer := some "95, 200" }

/-- Fixture: a field state with an outstanding request for `Paris`
while the displayed query has moved on. -/
def c1respState : LIState :=
  { liInit with query := "Pa", inFlight := [(0, "Paris")],
                isSearching := true, nextReq := 1 }

/-- Fixture: a location with a non-empty address. -/
def c7loc : Location :=
  { lat := some (Dec.ofInt 10), lng := some (Dec.ofInt 20),
    address := some "Eiffel Tower" }

/-- Fixture: a geocoding result whose display name is empty. -/
def emptyNameResult : SearchResult :=
  { display_name := "", lat := "10", lon := "20" }

/-- Fixture: a response with a single cycling option, recommended. -/
def respC : EcoRouteResponse := mkResponse [routeCycling] (some routeCycling)

/-- Fixture: a response with a single driving option, recommended. -/
def respD : EcoRouteResponse := mkResponse [routeDriving] (some routeDriving)

/-- Fixture: a response with cycling and walking options, cycling
recommended. -/
def respCW : EcoRouteResponse :=
  mkResponse [routeCycling, routeWalking] (some routeCycling)

/-- Fixture: the app state after filling both locations and clicking
the plan button once (call 0 in flight). -/
def planReadyState : AppState :=
  appRun appInit [.setStart (some locStart), .setEnd (some locEnd), .planClick]

/-- Fixture: the app state with two overlapping plan calls in flight
(call 1 issued after call 0, before call 0 completed). -/
def twoCallState : AppState :=
  appRun appInit [.setStart (some locStart), .setEnd (some locEnd),
                  .planClick, .planClick]

/-- Fixture: the app state after a successful plan whose result offers
only the cycling option. -/
def c2state : AppState := appStep planReadyState (.planSuccess 0 respC)

/-- Fixture: a well-wired event sequence ending in a manual selection
of an offered option. -/
def c2trace : List AppEvent :=
  [.setStart (some locStart), .setEnd (some locEnd), .planClick,
   .planSuccess 0 respCW, .routeSelect routeWalking]

/-- Fixture: overlapping plan calls whose responses arrive in reverse
order of issue. -/
def c4trace : List AppEvent :=
  [.setStart (some locStart), .setEnd (some locEnd), .planClick, .planClick,
   .planSuccess 1 respC, .planSuccess 0 respD]

/-- Fixture: display-only activity (re-renders and input updates). -/
def c6displayTrace : List AppEvent :=
  [.redraw, .setModes ["foot-walking"], .setStart none, .redraw]

/-- The selection invariant of the spec: a non-null selected route
references an option of the current planning result. -/
def SelectionInvariant (s : AppState) : Prop :=
  ∀ r, s.selectedRoute = some r →
    ∃ resp, s.routeData = some resp ∧ r ∈ resp.route_options

/-- Wiring discipline on a single event: a manual selection is drawn
from the current result's options, and a response recommends one of its
own options (or nothing).  Every other event is unrestricted. -/
def goodEvent (s : AppState) : AppEvent → Bool
  | .routeSelect r =>
    match s.routeData with
    | some resp => decide (r ∈ resp.route_options)
    | none => false
  | .planSuccess _ resp =>
    match resp.recommended_route with
    | some r => decide (r ∈ resp.route_options)
    | none => true
  | _ => true

/-- Wiring discipline along a whole event sequence. -/
def goodTrace : AppState → List AppEvent → Bool
  | _, [] => true
  | s, e :: es => goodEvent s e && goodTrace (appStep s e) es

/-- Events that are not a planning-call completion and not a manual
selection: re-renders, input updates, plan dispatches. -/
def preservesSelection : AppEvent → Bool
  | .planSuccess _ _ => false
  | .planFailure _ _ => false
  | .routeSelect _ => false
  | _ => true

/-- The query update touches none of the asynchronous state: no request
is dispatched, nothing is emitted. -/
theorem setQueryText_async_unchanged (s : LIState) (q : String) :
    (setQueryText s q).nextReq = s.nextReq ∧
    (setQueryText s q).inFlight = s.inFlight ∧
    (setQueryText s q).emitted = s.emitted := by
  unfold setQueryText runSearchEffect
  split
  · exact ⟨rfl, rfl, rfl⟩
  · split <;> exact ⟨rfl, rfl, rfl⟩

/-- The timer after a query update: unchanged on a no-op update,
re-armed with the new text when it is longer than 2 characters,
cancelled otherwise. -/
theorem setQueryText_timer (s : LIState) (q : String) :
    (setQueryText s q).timer =
      (if q = s.query then s.timer
       else if q.length > 2 then some q else none) := by
  unfold setQueryText runSearchEffect
  split
  · rfl
  · split <;> rfl

/-- A `handlePlanRoute` invocation changes neither the stored planning
result nor the selected route before its call completes. -/
theorem planClickStep_route_unchanged (s : AppState) :
    (planClickStep s).selectedRoute = s.selectedRoute ∧
    (planClickStep s).routeData = s.routeData := by
  obtain ⟨st, en, ms, rd, sr, il, er, pif, nc, rq⟩ := s
  cases st <;> cases en <;>
    first
      | exact ⟨rfl, rfl⟩
      | (dsimp only [planClickStep]; split <;> exact ⟨rfl, rfl⟩)

/-- One well-wired event preserves the selection invariant. -/
theorem selectionInvariant_step (s : AppState) (e : AppEvent)
    (hs : SelectionInvariant s) (he : goodEvent s e = true) :
    SelectionInvariant (appStep s e) := by
  cases e with
  | planClick =>
    intro r hr
    have h := planClickStep_route_unchanged s
    rw [show appStep s .planClick = planClickStep s from rfl, h.1] at hr
    obtain ⟨resp, h1, h2⟩ := hs r hr
    exact ⟨resp, by rw [show appStep s .planClick = planClickStep s from rfl, h.2]; exact h1, h2⟩
  | retryClick =>
    intro r hr
    have h := planClickStep_route_unchanged { s with error := none }
    rw [show appStep s .retryClick = planClickStep { s with error := none } from rfl, h.1] at hr
    obtain ⟨resp, h1, h2⟩ := hs r hr
    exact ⟨resp,
      by rw [show appStep s .retryClick = planClickStep { s with error := none } from rfl, h.2]
         exact h1, h2⟩
  | planSuccess id resp =>
    intro r hr
    show ∃ resp2, (planSuccessStep s id resp).routeData = some resp2 ∧ r ∈ resp2.route_options
    have hr2 : (planSuccessStep s id resp).selectedRoute = some r := hr
    unfold planSuccessStep at hr2 ⊢
    by_cases hc : s.planInFlight.contains id = true
    · rw [if_pos hc] at hr2 ⊢
      have hr3 : resp.recommended_route = some r := hr2
      refine ⟨resp, rfl, ?_⟩
      simp only [goodEvent, hr3, decide_eq_true_eq] at he
      exact he
    · rw [if_neg hc] at hr2 ⊢
      exact hs r hr2
  | planFailure id detail =>
    intro r hr
    have hr2 : (planFailureStep s id detail).selectedRoute = some r := hr
    show ∃ resp2, (planFailureStep s id detail).routeData = some resp2 ∧ r ∈ resp2.route_options
    unfold planFailureStep at hr2 ⊢
    by_cases hc : s.planInFlight.contains id = true
    · rw [if_pos hc] at hr2
      have hr3 : (none : Option RouteOption) = some r := hr2
      exact absurd hr3 (by simp)
    · rw [if_neg hc] at hr2 ⊢
      exact hs r hr2
  | routeSelect r0 =>
    intro r hr
    have : r = r0 := (Option.some.inj hr).symm
    subst this
    cases hrd : s.routeData with
    | none => simp [goodEvent, hrd] at he
    | some resp =>
      simp only [goodEvent, hrd, decide_eq_true_eq] at he
      exact ⟨resp, hrd, he⟩
  | setStart v => intro r hr; exact hs r hr
  | setEnd v => intro r hr; exact hs r hr
  | setModes ms => intro r hr; exact hs r hr
  | redraw => intro r hr; exact hs r hr

/-- A well-wired event sequence preserves the selection invariant. -/
theorem selectionInvariant_run (s : AppState) (es : List AppEvent)
    (hs : SelectionInvariant s) (ht : goodTrace s es = true) :
    SelectionInvariant (appRun s es) := by
  induction es generalizing s with
  | nil => exact hs
  | cons e es ih =>
    rw [goodTrace, Bool.and_eq_true] at ht
    exact ih (appStep s e) (selectionInvariant_step s e hs ht.1) ht.2

/-- Events other than call completions and manual selections leave the
selected route untouched. -/
theorem preservesSelection_step (s : AppState) (e : AppEvent)
    (h : preservesSelection e = true) :
    (appStep s e).selectedRoute = s.selectedRoute := by
  cases e with
  | planClick => exact (planClickStep_route_unchanged s).1
  | retryClick => exact (planClickStep_route_unchanged { s with error := none }).1
  | planSuccess id resp => simp [preservesSelection] at h
  | planFailure id detail => simp [preservesSelection] at h
  | routeSelect r => simp [preservesSelection] at h
  | setStart v => rfl
  | setEnd v => rfl
  | setModes ms => rfl
  | redraw => rfl

/-- A sequence of such events leaves the selected route untouched. -/
theorem preservesSelection_run (s : AppState) (es : List AppEvent)
    (h : es.all preservesSelection = true) :
    (appRun s es).selectedRoute = s.selectedRoute := by
  induction es generalizing s with
  | nil => rfl
  | cons e es ih =>
    rw [List.all_cons, Bool.and_eq_true] at h
    rw [show appRun s (e :: es) = appRun (appStep s e) es from rfl]
    rw [ih (appStep s e) h.2, preservesSelection_step s e h.1]


/-- C5: when the debounce timer fires on a query that matches the
coordinate pattern with the first component in [-90, 90] and the second
in [-180, 180], the parsed Location is emitted directly upward, no
network geocoding request is dispatched, the result list is cleared and
the dropdown is closed. -/
theorem c5_coordinate_short_circuit (s : LIState) (q g1 g2 : String)
    (ht : s.timer = some q)
    (hm : coordMatchGroups q = some (g1, g2))
    (hrange : (jsGe (jsParseFloat g1) (-90) && jsLe (jsParseFloat g1) 90 &&
               jsGe (jsParseFloat g2) (-180) && jsLe (jsParseFloat g2) 180) = true) :
    (liStep s .timerFire).emitted =
      some (coordLocation (jsParseFloat g1) (jsParseFloat g2)) :: s.emitted ∧
    (liStep s .timerFire).nextReq = s.nextReq ∧
    (liStep s .timerFire).inFlight = s.inFlight ∧
    (liStep s .timerFire).results = [] ∧
    (liStep s .timerFire).showResults = false := by
  show (fireTimer s).emitted = _ ∧ (fireTimer s).nextReq = _ ∧
    (fireTimer s).inFlight = _ ∧ (fireTimer s).results = _ ∧
    (fireTimer s).showResults = _
  simp only [fireTimer, ht, hm]
  rw [if_pos hrange]
  exact ⟨rfl, rfl, rfl, rfl, rfl⟩

/-- Witness for C5 at the concrete query `13.05, 80.27`. -/
theorem c5_coordinate_short_circuit_witness :
    c5state.timer = some "13.05, 80.27" ∧
    coordMatchGroups "13.05, 80.27" = some ("13.05", "80.27") ∧
    (liStep c5state .timerFire).emitted =
      [some (coordLocation (jsParseFloat "13.05") (jsParseFloat "80.27"))] ∧
    (liStep c5state .timerFire).nextReq = 0 ∧
    (liStep c5state .timerFire).results = [] ∧
    (liStep c5state .timerFire).showResults = false := by
  have h := c5_coordinate_short_circuit c5state "13.05, 80.27" "13.05" "80.27"
    rfl (by decide) (by decide)
  exact ⟨rfl, by decide, by rw [h.1]; rfl, by rw [h.2.1]; rfl, h.2.2.2.1, h.2.2.2.2⟩

/-- C10: when the debounce timer fires on a query that matches the
coordinate pattern but whose components are not both in valid range, no
Location is emitted and the query falls through to a network geocoding
search as free text. -/
theorem c10_out_of_range_fallthrough (s : LIState) (q g1 g2 : String)
    (ht : s.timer = some q)
    (hm : coordMatchGroups q = some (g1, g2))
    (hrange : (jsGe (jsParseFloat g1) (-90) && jsLe (jsParseFloat g1) 90 &&
               jsGe (jsParseFloat g2) (-180) && jsLe (jsParseFloat g2) 180) = false) :
    (liStep s .timerFire).emitted = s.emitted ∧
    (liStep s .timerFire).inFlight = s.inFlight ++ [(s.nextReq, q)] ∧
    (liStep s .timerFire).nextReq = s.nextReq + 1 ∧
    (liStep s .timerFire).isSearching = true := by
  show (fireTimer s).emitted = _ ∧ (fireTimer s).inFlight = _ ∧
    (fireTimer s).nextReq = _ ∧ (fireTimer s).isSearching = _
  simp only [fireTimer, ht, hm]
  rw [if_neg (by simp [hrange])]
  exact ⟨rfl, rfl, rfl, rfl⟩

/-- Witness for C10 at the concrete query `95, 200`. -/
theorem c10_out_of_range_fallthrough_witness :
    c10state.timer = some "95, 200" ∧
    coordMatchGroups "95, 200" = some ("95", "200") ∧
    (liStep c10state .timerFire).emitted = [] ∧
    (liStep c10state .timerFire).inFlight = [(0, "95, 200")] ∧
    (liStep c10state .timerFire).nextReq = 1 ∧
    (liStep c10state .timerFire).isSearching = true := by
  have h := c10_out_of_range_fallthrough c10state "95, 200" "95" "200"
    rfl (by decide) (by decide)
  exact ⟨rfl, by decide, by rw [h.1]; rfl, by rw [h.2.1]; rfl, h.2.2.1, h.2.2.2⟩

/-- C8: a keystroke producing a query of length at most 2 triggers no
search at all — no timer is armed, no request is dispatched, nothing is
emitted — and the result list is cleared and the dropdown closed. -/
theorem c8_short_query_no_search (s : LIState) (q : String)
    (hne : q ≠ s.query) (hlen : q.length ≤ 2) :
    (liStep s (.keystroke q)).timer = none ∧
    (liStep s (.keystroke q)).results = [] ∧
    (liStep s (.keystroke q)).showResults = false ∧
    (liStep s (.keystroke q)).nextReq = s.nextReq ∧
    (liStep s (.keystroke q)).inFlight = s.inFlight ∧
    (liStep s (.keystroke q)).emitted = s.emitted := by
  show (setQueryText s q).timer = _ ∧ (setQueryText s q).results = _ ∧
    (setQueryText s q).showResults = _ ∧ (setQueryText s q).nextReq = _ ∧
    (setQueryText s q).inFlight = _ ∧ (setQueryText s q).emitted = _
  unfold setQueryText runSearchEffect
  rw [if_neg hne]
  rw [if_neg (by simpa using Nat.not_lt.mpr hlen)]
  exact ⟨rfl, rfl, rfl, rfl, rfl, rfl⟩

/-- Witness for C8 at the concrete query `ab`. -/
theorem c8_short_query_no_search_witness :
    ("ab" ≠ liInit.query) ∧ ("ab".length ≤ 2) ∧
    (liStep liInit (.keystroke "ab")).timer = none ∧
    (liStep liInit (.keystroke "ab")).results = [] ∧
    (liStep liInit (.keystroke "ab")).showResults = false ∧
    (liStep liInit (.keystroke "ab")).nextReq = 0 := by
  have h := c8_short_query_no_search liInit "ab" (by decide) (by decide)
  exact ⟨by decide, by decide, h.1, h.2.1, h.2.2.1, by rw [h.2.2.2.1]; rfl⟩

/-- C1 (counterexample): a search dispatched for `Paris` whose response
arrives after the query has changed to `Paris, Fr` still updates the
result list, the dropdown visibility and the searching flag — the
stale response is applied, not discarded. -/
theorem c1_counterexample :
    (liRun liInit [.keystroke "Paris", .timerFire]).inFlight = [(0, "Paris")] ∧
    (liRun liInit [.keystroke "Paris", .timerFire,
        .keystroke "Paris, Fr", .respond 0 [sampleResult]]).query = "Paris, Fr" ∧
    (liRun liInit [.keystroke "Paris", .timerFire,
        .keystroke "Paris, Fr", .respond 0 [sampleResult]]).results = [sampleResult] ∧
    (liRun liInit [.keystroke "Paris", .timerFire,
        .keystroke "Paris, Fr", .respond 0 [sampleResult]]).showResults = true ∧
    ("Paris" : String) ≠ "Paris, Fr" := by decide

/-- C1 (amended): no compare-and-discard happens at response arrival —
the response of any dispatched search updates `results`, `showResults`
and `isSearching` unconditionally, whatever the current query is.  The
only superseding mechanism is debounce cancellation: a keystroke
dispatches nothing itself and cancels (or replaces) the pending timer,
so a query superseded before its 300 ms window elapsed never reaches
the network. -/
theorem c1_staleness_amended :
    (∀ (s : LIState) (q : String),
        (liStep s (.keystroke q)).nextReq = s.nextReq ∧
        (liStep s (.keystroke q)).inFlight = s.inFlight ∧
        (liStep s (.keystroke q)).timer =
          (if q = s.query then s.timer
           else if q.length > 2 then some q else none)) ∧
    (∀ (s : LIState) (id : Nat) (res : List SearchResult),
        s.inFlight.any (fun p => p.1 == id) = true →
        (liStep s (.respond id res)).results = res ∧
        (liStep s (.respond id res)).showResults = decide (0 < res.length) ∧
        (liStep s (.respond id res)).isSearching = false) := by
  constructor
  · intro s q
    refine ⟨(setQueryText_async_unchanged s q).1,
      (setQueryText_async_unchanged s q).2.1, setQueryText_timer s q⟩
  · intro s id res h
    show (respondSearch s id res).results = _ ∧
      (respondSearch s id res).showResults = _ ∧
      (respondSearch s id res).isSearching = _
    unfold respondSearch
    rw [if_pos h]
    exact ⟨rfl, rfl, rfl⟩

/-- Witness for C1 (amended) at a concrete state with an outstanding
request for a query that no longer matches the displayed one. -/
theorem c1_staleness_witness :
    c1respState.inFlight.any (fun p => p.1 == 0) = true ∧
    c1respState.query ≠ "Paris" ∧
    (liStep c1respState (.respond 0 [sampleResult])).results = [sampleResult] ∧
    (liStep c1respState (.respond 0 [sampleResult])).isSearching = false := by
  have h := c1_staleness_amended.2 c1respState 0 [sampleResult] (by decide)
  exact ⟨by decide, by decide, h.1, h.2.2⟩

/-- C7 (counterexample): an external (programmatic) value change with a
non-empty address re-enters the search pipeline — the derived text arms
the debounce timer, and when it fires a network geocoding request is
dispatched, with no user keystroke involved. -/
theorem c7_counterexample :
    (liRun liInit [.externalValue (some c7loc), .timerFire]).inFlight =
      [(0, "Eiffel Tower")] ∧
    (liRun liInit [.externalValue (some c7loc), .timerFire]).nextReq = 1 ∧
    (liRun liInit [.externalValue (some c7loc)]).query = "Eiffel Tower" := by decide

/-- C7 (amended): the displayed text re-derives from the new value (its
address when present and non-empty, else the `lat, lng` rendering, else
the empty string), and the sync step itself emits nothing and issues no
request; but because the search effect is keyed on the query text, a
changed derived text longer than 2 characters arms the debounce timer,
whose firing can then dispatch a geocode search. -/
theorem c7_value_sync_amended :
    ∀ (s : LIState) (v : Option Location),
      (liStep s (.externalValue v)).query = deriveQueryText v ∧
      (liStep s (.externalValue v)).nextReq = s.nextReq ∧
      (liStep s (.externalValue v)).inFlight = s.inFlight ∧
      (liStep s (.externalValue v)).emitted = s.emitted ∧
      (liStep s (.externalValue v)).timer =
        (if deriveQueryText v = s.query then s.timer
         else if (deriveQueryText v).length > 2 then some (deriveQueryText v) else none) := by
  intro s v
  have h := setQueryText_async_unchanged s (deriveQueryText v)
  refine ⟨?_, h.1, h.2.1, h.2.2, setQueryText_timer s (deriveQueryText v)⟩
  show (setQueryText s (deriveQueryText v)).query = deriveQueryText v
  unfold setQueryText runSearchEffect
  split
  · next heq => exact heq.symm
  · split <;> rfl

/-- C9 (counterexample): a geocoding result whose display name is the
empty string round-trips to the `lat, lng` rendering instead — deriving
the display text from the emitted Location does not reproduce
`display_name`. -/
theorem c9_counterexample :
    (liStep liInit (.selectResult emptyNameResult)).emitted =
      [some (locationOfResult emptyNameResult)] ∧
    deriveQueryText (some (locationOfResult emptyNameResult)) = "10, 20" ∧
    deriveQueryText (some (locationOfResult emptyNameResult)) ≠
      emptyNameResult.display_name := by decide

/-- C9 (amended): selecting a result emits the Location
`{lat: parseFloat(result.lat), lng: parseFloat(result.lon), address:
result.display_name}` and closes the dropdown; re-deriving the display
text from that Location reproduces `display_name` exactly whenever
`display_name` is non-empty. -/
theorem c9_roundtrip_amended :
    ∀ (s : LIState) (r : SearchResult),
      (liStep s (.selectResult r)).emitted = some (locationOfResult r) :: s.emitted ∧
      (locationOfResult r).lat = jsParseFloat r.lat ∧
      (locationOfResult r).lng = jsParseFloat r.lon ∧
      (locationOfResult r).address = some r.display_name ∧
      (liStep s (.selectResult r)).showResults = false ∧
      (r.display_name ≠ "" →
        deriveQueryText (some (locationOfResult r)) = r.display_name) := by
  intro s r
  refine ⟨?_, rfl, rfl, rfl, rfl, ?_⟩
  · show (setQueryText { s with emitted := some (locationOfResult r) :: s.emitted }
        r.display_name).emitted = some (locationOfResult r) :: s.emitted
    exact (setQueryText_async_unchanged _ _).2.2
  · intro hne
    show (match (locationOfResult r).address with
      | some a => if a = "" then jsNumToString (locationOfResult r).lat ++ ", " ++
          jsNumToString (locationOfResult r).lng else a
      | none => jsNumToString (locationOfResult r).lat ++ ", " ++
          jsNumToString (locationOfResult r).lng) = r.display_name
    show (if r.display_name = "" then jsNumToString (locationOfResult r).lat ++ ", " ++
        jsNumToString (locationOfResult r).lng else r.display_name) = r.display_name
    rw [if_neg hne]

/-- Witness for C9 (amended) at a concrete result with a non-empty
display name. -/
theorem c9_roundtrip_witness :
    sampleResult.display_name ≠ "" ∧
    deriveQueryText (some (locationOfResult sampleResult)) =
      sampleResult.display_name ∧
    (liStep liInit (.selectResult sampleResult)).emitted =
      [some (locationOfResult sampleResult)] := by
  have h := c9_roundtrip_amended liInit sampleResult
  exact ⟨by decide, h.2.2.2.2.2 (by decide), by rw [h.1]; rfl⟩

/-- A planning response whose call is still outstanding is applied:
result stored, selection reset to the recommendation, loading flag
dropped. -/
theorem planSuccess_applied (s : AppState) (id : Nat) (resp : EcoRouteResponse)
    (hc : s.planInFlight.contains id = true) :
    (appStep s (.planSuccess id resp)).routeData = some resp ∧
    (appStep s (.planSuccess id resp)).selectedRoute = resp.recommended_route ∧
    (appStep s (.planSuccess id resp)).isLoading = false := by
  show (planSuccessStep s id resp).routeData = _ ∧
    (planSuccessStep s id resp).selectedRoute = _ ∧
    (planSuccessStep s id resp).isLoading = _
  unfold planSuccessStep
  rw [if_pos hc]
  exact ⟨rfl, rfl, rfl⟩

/-- C2 (counterexample): `handleRouteSelect` performs no membership
check — manually selecting a route whose mode is not among the current
result's options is not a no-op: it overwrites `selectedRoute`,
breaking the invariant. -/
theorem c2_counterexample :
    c2state.routeData = some respC ∧
    c2state.selectedRoute = some routeCycling ∧
    routeWalking.mode ∉ respC.route_options.map RouteOption.mode ∧
    (appStep c2state (.routeSelect routeWalking)).selectedRoute = some routeWalking ∧
    (appStep c2state (.routeSelect routeWalking)).selectedRoute ≠
      c2state.selectedRoute := by decide

/-- C2 (amended): manual selection sets `selectedRoute` unconditionally;
the invariant — a non-null selection references an option of the
current planning result — holds along any event sequence in which every
manual selection is drawn from the current result's options and every
response's recommendation is among its own options. -/
theorem c2_selection_invariant_amended :
    (∀ (s : AppState) (r : RouteOption),
        (appStep s (.routeSelect r)).selectedRoute = some r) ∧
    (∀ (s : AppState) (es : List AppEvent),
        SelectionInvariant s → goodTrace s es = true →
        SelectionInvariant (appRun s es)) :=
  ⟨fun _ _ => rfl, selectionInvariant_run⟩

/-- Witness for C2 (amended) on a concrete well-wired trace. -/
theorem c2_selection_invariant_witness :
    goodTrace appInit c2trace = true ∧
    SelectionInvariant (appRun appInit c2trace) :=
  ⟨by decide,
   c2_selection_invariant_amended.2 appInit c2trace (fun r hr => nomatch hr) (by decide)⟩

/-- C3 (counterexample): a failure whose structured payload has an
empty `detail` string (present but falsy) displays the generic
fallback, not the payload's detail. -/
theorem c3_counterexample :
    (appStep planReadyState (.planFailure 0 (some ""))).error =
      some fallbackPlanError ∧
    (appStep planReadyState (.planFailure 0 (some ""))).error ≠ some "" ∧
    (appStep planReadyState (.planFailure 0 (some ""))).routeData = none ∧
    (appStep planReadyState (.planFailure 0 (some ""))).selectedRoute = none := by decide

/-- C3 (amended): on failure of an outstanding plan call the displayed
message is the response body's `detail` when present and non-empty,
else the generic fallback (also on an empty `detail`), and both the
planning result and the selected route are cleared to null. -/
theorem c3_failure_state_amended :
    (∀ d : String, d ≠ "" → planErrorMessage (some d) = d) ∧
    planErrorMessage none = fallbackPlanError ∧
    planErrorMessage (some "") = fallbackPlanError ∧
    (∀ (s : AppState) (id : Nat) (detail : Option String),
        s.planInFlight.contains id = true →
        (appStep s (.planFailure id detail)).error = some (planErrorMessage detail) ∧
        (appStep s (.planFailure id detail)).routeData = none ∧
        (appStep s (.planFailure id detail)).selectedRoute = none) := by
  refine ⟨?_, rfl, rfl, ?_⟩
  · intro d hd
    show (if d = "" then fallbackPlanError else d) = d
    rw [if_neg hd]
  · intro s id detail hc
    show (planFailureStep s id detail).error = _ ∧
      (planFailureStep s id detail).routeData = _ ∧
      (planFailureStep s id detail).selectedRoute = _
    unfold planFailureStep
    rw [if_pos hc]
    exact ⟨rfl, rfl, rfl⟩

/-- Witness for C3 (amended) at the concrete payload
`{"detail": "no route found"}`. -/
theorem c3_failure_state_witness :
    ("no route found" : String) ≠ "" ∧
    planReadyState.planInFlight.contains 0 = true ∧
    (appStep planReadyState (.planFailure 0 (some "no route found"))).error =
      some "no route found" ∧
    (appStep planReadyState (.planFailure 0 (some "no route found"))).routeData = none ∧
    (appStep planReadyState (.planFailure 0 (some "no route found"))).selectedRoute = none := by
  have h := c3_failure_state_amended.2.2.2 planReadyState 0 (some "no route found") (by decide)
  have hm := c3_failure_state_amended.1 "no route found" (by decide)
  exact ⟨by decide, by decide, by rw [h.1, hm], h.2.1, h.2.2⟩

/-- C4 (counterexample): with two overlapping plan calls, the
superseded first call's late-arriving response is applied — it
overwrites the newer call's already-applied result. -/
theorem c4_counterexample :
    (appRun appInit c4trace).routeData = some respD ∧
    (appRun appInit c4trace).selectedRoute = some routeDriving ∧
    respD ≠ respC := by decide

/-- C4 (amended): no staleness check is performed — the response of any
outstanding plan call is applied on arrival, so with overlapping calls
the final state reflects arrival order, not issue order: whichever
response arrives last wins. -/
theorem c4_plan_response_amended :
    (∀ (s : AppState) (id : Nat) (resp : EcoRouteResponse),
        s.planInFlight.contains id = true →
        (appStep s (.planSuccess id resp)).routeData = some resp ∧
        (appStep s (.planSuccess id resp)).selectedRoute = resp.recommended_route ∧
        (appStep s (.planSuccess id resp)).isLoading = false) ∧
    (∀ (s : AppState) (id1 id2 : Nat) (r1 r2 : EcoRouteResponse),
        id1 ≠ id2 → s.planInFlight.contains id1 = true →
        (appRun s [.planSuccess id2 r2, .planSuccess id1 r1]).routeData = some r1 ∧
        (appRun s [.planSuccess id2 r2, .planSuccess id1 r1]).selectedRoute =
          r1.recommended_route) := by
  refine ⟨planSuccess_applied, ?_⟩
  intro s id1 id2 r1 r2 hne h1
  have hmem : id1 ∈ s.planInFlight := List.elem_iff.mp h1
  have h2 : (appStep s (.planSuccess id2 r2)).planInFlight.contains id1 = true := by
    show (planSuccessStep s id2 r2).planInFlight.contains id1 = true
    unfold planSuccessStep
    by_cases hc : s.planInFlight.contains id2 = true
    · rw [if_pos hc]
      show (s.planInFlight.filter (fun i => i != id2)).contains id1 = true
      rw [List.elem_iff, List.mem_filter]
      exact ⟨hmem, by simpa using hne⟩
    · rw [if_neg hc]
      exact h1
  have h3 := planSuccess_applied (appStep s (.planSuccess id2 r2)) id1 r1 h2
  exact ⟨h3.1, h3.2.1⟩

/-- Witness for C4 (amended): two overlapping calls, responses in
reverse order; the superseded call's response determines the final
state. -/
theorem c4_plan_response_witness :
    (0 : Nat) ≠ 1 ∧
    twoCallState.planInFlight.contains 0 = true ∧
    (appRun twoCallState [.planSuccess 1 respC, .planSuccess 0 respD]).routeData =
      some respD := by
  refine ⟨by decide, by decide, ?_⟩
  exact (c4_plan_response_amended.2 twoCallState 0 1 respD respC (by decide) (by decide)).1

/-- C6: after a successful plan call the selected route equals the
response's recommended route (possibly null); a manual selection sets
the selected route to the chosen option; and any sequence of
re-renders and input updates — anything that is neither a call
completion nor a manual selection — leaves the selected route
unchanged. -/
theorem c6_selection_reconciliation :
    (∀ (s : AppState) (id : Nat) (resp : EcoRouteResponse),
        s.planInFlight.contains id = true →
        (appStep s (.planSuccess id resp)).selectedRoute = resp.recommended_route) ∧
    (∀ (s : AppState) (r : RouteOption),
        (appStep s (.routeSelect r)).selectedRoute = some r) ∧
    (∀ (s : AppState) (es : List AppEvent),
        es.all preservesSelection = true →
        (appRun s es).selectedRoute = s.selectedRoute) :=
  ⟨fun s id resp hc => (planSuccess_applied s id resp hc).2.1,
   fun _ _ => rfl,
   preservesSelection_run⟩

/-- Witness for C6 at a concrete successful plan, manual selection and
display-only activity. -/
theorem c6_selection_reconciliation_witness :
    planReadyState.planInFlight.contains 0 = true ∧
    (appStep planReadyState (.planSuccess 0 respCW)).selectedRoute =
      some routeCycling ∧
    (appStep c2state (.routeSelect routeDriving)).selectedRoute =
      some routeDriving ∧
    c6displayTrace.all preservesSelection = true ∧
    (appRun c2state c6displayTrace).selectedRoute = c2state.selectedRoute := by
  have h1 := c6_selection_reconciliation.1 planReadyState 0 respCW (by decide)
  have h2 := c6_selection_reconciliation.2.1 c2state routeDriving
  have h3 := c6_selection_reconciliation.2.2 c2state c6displayTrace (by decide)
  exact ⟨by decide, by rw [h1]; rfl, h2, by decide, h3⟩

end EcoMap
